import Mathlib

/-!
Verification of the phrase-agent web application (src/agent.py).

The development shallowly embeds the core of the program:

* `phrases` and `agent_phrase` embed the phrase-selection function.
  The call to `random.choice` is modelled by an explicit index oracle
  `r : Nat`; `random.choice xs` picks `xs[r % len(xs)]` and raises
  `IndexError` on an empty sequence, modelled by `Except.error`.
* `urlparseTarget` embeds the relevant part of `urllib.parse.urlparse`
  for origin-form HTTP request targets: the fragment is split off at the
  first number-sign, the query at the first question mark, and the
  `;params` suffix of the last path segment is removed, as the stdlib
  does.  Scheme and netloc parsing for absolute-form URLs is not
  modelled (no claim involves such targets).
* `parse_qs` embeds `urllib.parse.parse_qs` with its defaults:
  fields are split on the ampersand, a field without an equals sign or
  with a blank value is dropped, names and values are decoded with
  plus-to-space and percent-decoding.  Percent escapes are decoded
  bytewise; multi-byte UTF-8 escapes are therefore decoded to one
  character per byte, a simplification that no claim exercises.
* `jsonDumps`-style helpers embed `json.dumps` serialization of the two
  object shapes the program produces, with the default
  `ensure_ascii=True` escaping of strings.
* `do_GET` embeds `WebApp.do_GET`.  Exceptions raised while sending the
  response (socket failures and the like) are modelled by an injected
  failure `sendFail : Option String`; the try/except block surfaces any
  failure as a 500 result carrying the message given to `send_error`.
* `lowerStr` embeds `str.lower` on ASCII letters.  Python also lowercases
  non-ASCII letters, but no non-ASCII character has `"t"`, `"r"`, `"u"`
  or `"e"` as its lowercase form, so the comparison against the literal
  `"true"` is unaffected.
-/

namespace Agent

/-- The hardcoded phrase list built by `agent_phrase` (src/agent.py lines 16-21). -/
def phrases : List String :=
  [ "The name’s Bond. James Bond.",
    "Shaken, not stirred.",
    "They say you’re judged by the strength of your enemies.",
    "Problem solver? More of a problem eliminator." ]

/-- `agent_phrase(randomize)` (src/agent.py lines 12-26).  `r` is the
randomness oracle consumed by `random.choice`; the `IndexError` each
branch can raise on an empty list is modelled by `Except.error` with
the message of the corresponding Python exception. -/
def agent_phrase (randomize : Bool) (r : Nat) : Except String String :=
  if randomize then
    match phrases.get? (r % phrases.length) with
    | some p => Except.ok p
    | none => Except.error ("Cannot choose from an empty sequence")
  else
    match phrases.get? 0 with
    | some p => Except.ok p
    | none => Except.error ("list index out of range")

/-- Split a character list at the first occurrence of `d`, if any. -/
def splitOnFirst (d : Char) : List Char → Option (List Char × List Char)
  | [] => none
  | c :: cs =>
    if c = d then some ([], cs)
    else
      match splitOnFirst d cs with
      | some (l, rest) => some (c :: l, rest)
      | none => none

/-- Split a character list on every occurrence of `d` (like `str.split`):
`splitAllOn d [] = [[]]`, and separators produce empty groups. -/
def splitAllOn (d : Char) : List Char → List (List Char)
  | [] => [[]]
  | c :: cs =>
    let groups := splitAllOn d cs
    if c = d then [] :: groups
    else
      match groups with
      | g :: gs => (c :: g) :: gs
      | [] => [[c]]

/-- Truncate at the first semicolon. -/
def dropFromSemi : List Char → List Char
  | [] => []
  | c :: cs => if c = ';' then [] else c :: dropFromSemi cs

/-- Split a character list after its last slash: `some (before, after)`
where `before` ends with the last slash and `after` holds no slash. -/
def splitLastSlash : List Char → Option (List Char × List Char)
  | [] => none
  | c :: cs =>
    match splitLastSlash cs with
    | some (l, rest) => some (c :: l, rest)
    | none => if c = '/' then some ([c], cs) else none

/-- The `;params` stripping that `urlparse` applies to the path: when a
semicolon is present, the path is cut at the first semicolon after the
last slash (or at the first semicolon when there is no slash). -/
def stripParams (cs : List Char) : List Char :=
  if ';' ∈ cs then
    match splitLastSlash cs with
    | some (l, rest) => l ++ dropFromSemi rest
    | none => dropFromSemi cs
  else cs

/-- `urlparse(target)` reduced to the `(path, query)` pair the handler
uses (src/agent.py lines 45-47): the fragment is removed at the first
number-sign, the query starts after the first question mark of the
remainder, and `;params` is stripped from the path. -/
def urlparseTarget (target : String) : String × String :=
  let noFrag :=
    match splitOnFirst '#' target.data with
    | some (l, _) => l
    | none => target.data
  let pathQuery :=
    match splitOnFirst '?' noFrag with
    | some (l, rest) => (l, rest)
    | none => (noFrag, [])
  ((stripParams pathQuery.1).asString, pathQuery.2.asString)

/-- Hexadecimal value of a character, `none` when it is not a hex digit. -/
def hexVal? (c : Char) : Option Nat :=
  if '0' ≤ c ∧ c ≤ '9' then some (c.toNat - 48)
  else if 'a' ≤ c ∧ c ≤ 'f' then some (c.toNat - 87)
  else if 'A' ≤ c ∧ c ≤ 'F' then some (c.toNat - 55)
  else none

/-- Percent-decoding of `urllib.parse.unquote`: a percent sign followed
by two hex digits becomes the denoted byte; an invalid escape is kept
verbatim.  Bytes are mapped to characters directly (bytewise view). -/
def percentDecode : List Char → List Char
  | '%' :: a :: b :: rest =>
    match hexVal? a, hexVal? b with
    | some ha, some hb => Char.ofNat (16 * ha + hb) :: percentDecode rest
    | _, _ => '%' :: percentDecode (a :: b :: rest)
  | c :: rest => c :: percentDecode rest
  | [] => []

/-- `unquote_plus` as used by `parse_qsl`: plus signs become spaces,
then percent escapes are decoded. -/
def unquotePlus (cs : List Char) : String :=
  (percentDecode (cs.map (fun c => if c = '+' then ' ' else c))).asString

/-- `urllib.parse.parse_qsl` with default arguments: split on the
ampersand, skip empty fields, skip fields without an equals sign
(`strict_parsing=False`) and fields with a blank value
(`keep_blank_values=False`), and decode name and value. -/
def parse_qsl (queryStr : String) : List (String × String) :=
  (splitAllOn '&' queryStr.data).filterMap fun field =>
    match field with
    | [] => none
    | _ =>
      match splitOnFirst '=' field with
      | none => none
      | some (name, val) =>
        match val with
        | [] => none
        | _ => some (unquotePlus name, unquotePlus val)

/-- Add one `(key, value)` pair to the grouped dictionary, preserving
insertion order and appending to the value list of an existing key. -/
def insertVal (d : List (String × List String)) (k v : String) :
    List (String × List String) :=
  match d with
  | [] => [(k, [v])]
  | (k0, vs) :: rest =>
    if k0 = k then (k0, vs ++ [v]) :: rest else (k0, vs) :: insertVal rest k v

/-- `urllib.parse.parse_qs`: the pair list grouped into a dictionary
from key to the list of its values, in order. -/
def parse_qs (queryStr : String) : List (String × List String) :=
  (parse_qsl queryStr).foldl (fun d p => insertVal d p.1 p.2) []

/-- `query.get(k, default)` on the grouped dictionary. -/
def dictGetD (d : List (String × List String)) (k : String)
    (dflt : List String) : List String :=
  match d.find? (fun p => p.1 == k) with
  | some p => p.2
  | none => dflt

/-- Head of a value list (the `[0]` subscript).  Both a `parse_qs`
value list and the default `[""]` are nonempty, so the Python subscript
cannot raise here and a defaulted head is faithful. -/
def firstValueD (vs : List String) : String :=
  match vs with
  | v :: _ => v
  | [] => ""

/-- `str.lower` on ASCII letters. -/
def lowerChar (c : Char) : Char :=
  if 'A' ≤ c ∧ c ≤ 'Z' then Char.ofNat (c.toNat + 32) else c

/-- `str.lower` on ASCII strings (see the header note on non-ASCII). -/
def lowerStr (s : String) : String :=
  (s.data.map lowerChar).asString

/-- `query.get("random", [""])[0]`: the first supplied value of the
`random` query parameter, the empty string when it is absent. -/
def firstRandomValue (queryStr : String) : String :=
  firstValueD (dictGetD (parse_qs queryStr) "random" [""])

/-- `query.get("random", [""])[0].lower() == "true"` (src/agent.py line 58). -/
def randomizeFlag (queryStr : String) : Bool :=
  lowerStr (firstRandomValue queryStr) == "true"

/-- Lowercase hexadecimal digit. -/
def hexDigitChar (n : Nat) : Char :=
  if n < 10 then Char.ofNat (48 + n) else Char.ofNat (87 + n)

/-- Four lowercase hexadecimal digits, as `"\\u%04x" % n` formats them. -/
def hex4 (n : Nat) : String :=
  ⟨[hexDigitChar (n / 4096 % 16), hexDigitChar (n / 256 % 16),
    hexDigitChar (n / 16 % 16), hexDigitChar (n % 16)]⟩

/-- The `\uXXXX` escape `json.dumps` emits for a non-ASCII code point,
as a surrogate pair beyond the basic multilingual plane. -/
def uEscape (n : Nat) : String :=
  if n < 65536 then "\\u" ++ hex4 n
  else
    let m := n - 65536
    "\\u" ++ hex4 (55296 + m / 1024) ++ "\\u" ++ hex4 (56320 + m % 1024)

/-- Escaping of one character inside a JSON string by `json.dumps` with
its default `ensure_ascii=True`: quote, backslash and the short control
escapes, printable ASCII verbatim, everything else as `\uXXXX`. -/
def jsonEscapeChar (c : Char) : String :=
  if c = '"' then "\\\""
  else if c = '\\' then "\\\\"
  else if c = '\x08' then "\\b"
  else if c = '\x0c' then "\\f"
  else if c = '\n' then "\\n"
  else if c = '\r' then "\\r"
  else if c = '\t' then "\\t"
  else if 32 ≤ c.toNat ∧ c.toNat ≤ 126 then String.singleton c
  else uEscape c.toNat

/-- A JSON string literal as `json.dumps` serializes it. -/
def jsonStr (s : String) : String :=
  "\"" ++ String.join (s.data.map jsonEscapeChar) ++ "\""

/-- `json.dumps({"random": randomize, "phrase": phrase})`
(src/agent.py lines 59-62): insertion order and the default
`", "` and `": "` separators. -/
def jsonDumpsPhrase (randomize : Bool) (phrase : String) : String :=
  "\x7b\"random\": " ++ (if randomize then "true" else "false") ++
    ", \"phrase\": " ++ jsonStr phrase ++ "\x7d"

/-- `json.dumps({"error": "No route found matching {}".format(route)})`
(src/agent.py lines 67-69). -/
def jsonDumpsError (route : String) : String :=
  "\x7b\"error\": " ++ jsonStr ("No route found matching " ++ route) ++ "\x7d"

/-- A successfully sent response: status code, Content-Type header and
body, as written by lines 72-75 of src/agent.py. -/
structure Response where
  code : Nat
  contentType : String
  content : String
deriving DecidableEq

/-- Outcome of handling one GET request: a normal response, or the
`send_error(500, message=..., explain=...)` path of the except block. -/
inductive HttpResult where
  | ok : Response → HttpResult
  | serverError : Nat → String → String → HttpResult
deriving DecidableEq

/-- The body of the try block that computes `r_code` and `r_content`
(src/agent.py lines 54-69).  An exception raised inside it —
`agent_phrase` on an empty list — propagates as `Except.error`. -/
def buildResponse (route queryStr : String) (r : Nat) : Except String Response :=
  if route = "/phrase" then
    let randomize := randomizeFlag queryStr
    match agent_phrase randomize r with
    | Except.ok phrase =>
      Except.ok ⟨200, "application/json", jsonDumpsPhrase randomize phrase⟩
    | Except.error e => Except.error e
  else
    Except.ok ⟨404, "application/json", jsonDumpsError route⟩

/-- `WebApp.do_GET` (src/agent.py lines 43-79).  `target` is
`self.path` (the raw request target), `r` the randomness oracle, and
`sendFail` an injected failure of the response-sending calls inside the
try block; any exception is caught and answered with
`send_error(500, message="Server Error.", explain=str(exc))`. -/
def do_GET (target : String) (r : Nat) (sendFail : Option String) : HttpResult :=
  let parsed := urlparseTarget target
  match buildResponse parsed.1 parsed.2 r with
  | Except.error e => HttpResult.serverError 500 "Server Error." e
  | Except.ok resp =>
    match sendFail with
    | some exc => HttpResult.serverError 500 "Server Error." exc
    | none => HttpResult.ok resp

/-- One request handled against the shared server state (the phrase
set the process holds).  The body of `do_GET` assigns only
request-local variables (`parsed_url`, `route`, `query`, `r_code`,
`r_type`, `r_content`) and never writes to the phrase list or any other
cross-request data, so the state passes through unchanged. -/
def handleRequest (s : List String) (req : String × Nat × Option String) :
    HttpResult × List String :=
  (do_GET req.1 req.2.1 req.2.2, s)

/-- A whole service trace: handle a list of requests in order,
threading the shared state. -/
def serveAll (s : List String) :
    List (String × Nat × Option String) → List HttpResult × List String
  | [] => ([], s)
  | req :: reqs =>
    let step := handleRequest s req
    let rest := serveAll step.2 reqs
    (step.1 :: rest.1, rest.2)

/-- Every branch of `agent_phrase` succeeds and returns a member of the
phrase list: the hardcoded list is nonempty, so neither the `[0]`
subscript nor `random.choice` can raise. -/
theorem phrases_get?_ok (k : Nat) (hk : k < phrases.length) :
    ∃ p, phrases.get? k = some p ∧ p ∈ phrases := by
  have h4 : phrases.length = 4 := rfl
  rw [h4] at hk
  interval_cases k <;> exact ⟨_, rfl, by decide⟩

theorem agent_phrase_total (b : Bool) (r : Nat) :
    ∃ p, agent_phrase b r = Except.ok p ∧ p ∈ phrases := by
  cases b with
  | false =>
    exact ⟨"The name’s Bond. James Bond.", rfl, by decide⟩
  | true =>
    obtain ⟨p, hp, hmem⟩ :=
      phrases_get?_ok (r % phrases.length) (Nat.mod_lt _ (by decide))
    refine ⟨p, ?_, hmem⟩
    show (match phrases.get? (r % phrases.length) with
          | some q => Except.ok q
          | none => Except.error ("Cannot choose from an empty sequence")) =
        Except.ok p
    rw [hp]

/-- The try block never raises on its own: `agent_phrase` always
succeeds, so `buildResponse` always returns a response. -/
theorem buildResponse_ok (route queryStr : String) (r : Nat) :
    ∃ resp, buildResponse route queryStr r = Except.ok resp := by
  by_cases h : route = "/phrase"
  · obtain ⟨p, hp, -⟩ := agent_phrase_total (randomizeFlag queryStr) r
    exact ⟨⟨200, "application/json", jsonDumpsPhrase (randomizeFlag queryStr) p⟩,
      by simp [buildResponse, h, hp]⟩
  · exact ⟨⟨404, "application/json", jsonDumpsError route⟩,
      by simp [buildResponse, h]⟩

/-- C1: for every call with randomize=false, agent_phrase returns the
first element of the phrase list (index 0), the same fixed phrase
every time, whatever the state of the randomness source. -/
theorem c1_false_returns_first_phrase (r : Nat) :
    agent_phrase false r = Except.ok ("The name’s Bond. James Bond.") ∧
    phrases.get? 0 = some ("The name’s Bond. James Bond.") :=
  ⟨rfl, rfl⟩

/-- C2: for every GET whose parsed path is "/phrase", the response is
200 application/json whose body records the randomize flag, and that
flag is true exactly when the first supplied value of the query
parameter random, lowercased, equals "true" (any other value or absence
gives false); in particular a request with no query gets the body
with random false and the first phrase. -/
theorem c2_phrase_route_flag (target : String) (r : Nat)
    (h : (urlparseTarget target).1 = "/phrase") :
    (∃ p, p ∈ phrases ∧
        do_GET target r none =
          HttpResult.ok ⟨200, "application/json",
            jsonDumpsPhrase (randomizeFlag (urlparseTarget target).2) p⟩ ∧
        (randomizeFlag (urlparseTarget target).2 = true ↔
          lowerStr (firstRandomValue (urlparseTarget target).2) = "true")) ∧
    do_GET ("/phrase") r none =
      HttpResult.ok ⟨200, "application/json",
        "\x7b\"random\": false, \"phrase\": \"The name\\u2019s Bond. James Bond.\"\x7d"⟩ := by
  constructor
  · obtain ⟨p, hp, hmem⟩ :=
      agent_phrase_total (randomizeFlag (urlparseTarget target).2) r
    refine ⟨p, hmem, ?_, ?_⟩
    · simp [do_GET, buildResponse, h, hp]
    · simp [randomizeFlag]
  · rfl

/-- C2 witness at the concrete target "/phrase?x=1". -/
theorem c2_phrase_route_flag_witness :
    (urlparseTarget ("/phrase?x=1")).1 = "/phrase" ∧
    ((∃ p, p ∈ phrases ∧
        do_GET ("/phrase?x=1") 0 none =
          HttpResult.ok ⟨200, "application/json",
            jsonDumpsPhrase (randomizeFlag (urlparseTarget ("/phrase?x=1")).2) p⟩ ∧
        (randomizeFlag (urlparseTarget ("/phrase?x=1")).2 = true ↔
          lowerStr (firstRandomValue (urlparseTarget ("/phrase?x=1")).2) = "true")) ∧
     do_GET ("/phrase") 0 none =
       HttpResult.ok ⟨200, "application/json",
         "\x7b\"random\": false, \"phrase\": \"The name\\u2019s Bond. James Bond.\"\x7d"⟩) :=
  ⟨by decide, c2_phrase_route_flag ("/phrase?x=1") 0 (by decide)⟩

/-- C3 counterexample: at the path /a"b the 404 body carries the path
JSON-escaped (json.dumps escapes the quote), so the body differs from
the literal unescaped substitution the claim asserts. -/
theorem c3_unescaped_counterexample :
    do_GET ("/a\"b") 0 none =
      HttpResult.ok ⟨404, "application/json",
        "\x7b\"error\": \"No route found matching /a\\\"b\"\x7d"⟩ ∧
    "\x7b\"error\": \"No route found matching /a\\\"b\"\x7d" ≠
      "\x7b\"error\": \"No route found matching /a\"b\"\x7d" := by
  constructor
  · rfl
  · decide

/-- C3 (amended): every GET whose parsed path is not "/phrase" gets a
404 application/json response whose body is the serialization of
the error object, with the path substituted into the message and then
JSON-escaped by the serializer, so the body stays valid JSON even for
paths holding quote characters. -/
theorem c3_fallback_404_body (target : String) (r : Nat)
    (h : (urlparseTarget target).1 ≠ "/phrase") :
    do_GET target r none =
      HttpResult.ok ⟨404, "application/json",
        "\x7b\"error\": " ++
          jsonStr ("No route found matching " ++ (urlparseTarget target).1) ++
          "\x7d"⟩ := by
  simp [do_GET, buildResponse, h, jsonDumpsError]

/-- C3 witness at the concrete target "/unknown/path". -/
theorem c3_fallback_404_body_witness :
    (urlparseTarget ("/unknown/path")).1 ≠ "/phrase" ∧
    do_GET ("/unknown/path") 0 none =
      HttpResult.ok ⟨404, "application/json",
        "\x7b\"error\": " ++
          jsonStr ("No route found matching " ++
            (urlparseTarget ("/unknown/path")).1) ++
          "\x7d"⟩ :=
  ⟨by decide, c3_fallback_404_body ("/unknown/path") 0 (by decide)⟩

/-- C4 counterexample: GET /phrase?random=TRUE answers with
"random": true, not false — the supplied value is lowercased before the
comparison, so the uppercase spelling also counts as true. -/
theorem c4_uppercase_counterexample :
    do_GET ("/phrase?random=TRUE") 0 none =
      HttpResult.ok ⟨200, "application/json",
        "\x7b\"random\": true, \"phrase\": \"The name\\u2019s Bond. James Bond.\"\x7d"⟩ ∧
    randomizeFlag ("random=TRUE") = true := by
  constructor
  · rfl
  · rfl

/-- C4 (amended): GET /phrase?random=TRUE yields "random": true in the
body: the router lowercases the supplied value before comparing it with
"true", so the match is case-insensitive, and the phrase is a member of
the phrase list. -/
theorem c4_uppercase_is_true (r : Nat) :
    randomizeFlag ("random=TRUE") = true ∧
    ∃ p, p ∈ phrases ∧
      do_GET ("/phrase?random=TRUE") r none =
        HttpResult.ok ⟨200, "application/json", jsonDumpsPhrase true p⟩ := by
  refine ⟨rfl, ?_⟩
  obtain ⟨p, hp, hmem⟩ := agent_phrase_total true r
  refine ⟨p, hmem, ?_⟩
  have h1 : urlparseTarget ("/phrase?random=TRUE") = ("/phrase", "random=TRUE") := rfl
  have h2 : randomizeFlag ("random=TRUE") = true := rfl
  simp [do_GET, h1, buildResponse, h2, hp]

/-- C5: for every call with randomize=true, whatever the randomness
source yields, agent_phrase succeeds and the returned value is a member
of the phrase list. -/
theorem c5_random_result_is_member (r : Nat) :
    ∃ p, p ∈ phrases ∧ agent_phrase true r = Except.ok p := by
  obtain ⟨p, hp, hmem⟩ := agent_phrase_total true r
  exact ⟨p, hmem, hp⟩

/-- C6: when the random query parameter is supplied twice, parse_qs
keeps both values in order, the router reads the first one, and
random=true&random=false therefore answers with "random": true. -/
theorem c6_first_value_wins (r : Nat) :
    parse_qs ("random=true&random=false") = [("random", ["true", "false"])] ∧
    firstRandomValue ("random=true&random=false") = "true" ∧
    randomizeFlag ("random=true&random=false") = true ∧
    ∃ p, p ∈ phrases ∧
      do_GET ("/phrase?random=true&random=false") r none =
        HttpResult.ok ⟨200, "application/json", jsonDumpsPhrase true p⟩ := by
  refine ⟨rfl, rfl, rfl, ?_⟩
  obtain ⟨p, hp, hmem⟩ := agent_phrase_total true r
  refine ⟨p, hmem, ?_⟩
  have h1 : urlparseTarget ("/phrase?random=true&random=false") =
      ("/phrase", "random=true&random=false") := rfl
  have h2 : randomizeFlag ("random=true&random=false") = true := rfl
  simp [do_GET, h1, buildResponse, h2, hp]

/-- C7: whenever an internal failure is raised inside the try block
(modelled by the injected send failure), the handler answers with
status 500, the generic message "Server Error." and the failure's
description as the explanation, instead of propagating the exception —
the handler still returns, so the server loop keeps serving. -/
theorem c7_internal_failure_500 (target exc : String) (r : Nat) :
    do_GET target r (some exc) =
      HttpResult.serverError 500 "Server Error." exc := by
  obtain ⟨resp, hresp⟩ :=
    buildResponse_ok (urlparseTarget target).1 (urlparseTarget target).2 r
  simp [do_GET, hresp]

/-- C8: the hardcoded phrase list holds four phrases, so agent_phrase
succeeds for every argument: indexing element 0 and random choice never
reach the empty-list failure. -/
theorem c8_phrases_nonempty_safe :
    phrases.length = 4 ∧
    ∀ (b : Bool) (r : Nat), ∃ p, agent_phrase b r = Except.ok p := by
  refine ⟨rfl, fun b r => ?_⟩
  obtain ⟨p, hp, -⟩ := agent_phrase_total b r
  exact ⟨p, hp⟩

/-- C9: a service trace of any request list leaves the shared state
(the phrase set) exactly as it started, and every response is the one
the request would get in isolation — no request mutates cross-request
state, so repeated identical requests stay idempotent. -/
theorem c9_requests_leave_state_unchanged (s : List String)
    (reqs : List (String × Nat × Option String)) :
    (serveAll s reqs).2 = s ∧
    (serveAll s reqs).1 = reqs.map (fun req => do_GET req.1 req.2.1 req.2.2) := by
  induction reqs with
  | nil => exact ⟨rfl, rfl⟩
  | cons req reqs ih => simpa [serveAll, handleRequest] using ih

/-- C10: when the randomize flag resolves to false, the response is a
deterministic function of the parsed path and the first value of the
random query parameter alone: two requests agreeing on those receive
identical results, whatever their other query parameters and whatever
the randomness source holds. -/
theorem c10_deterministic_when_not_random (t1 t2 : String) (r1 r2 : Nat)
    (hpath : (urlparseTarget t1).1 = (urlparseTarget t2).1)
    (hrand : firstRandomValue (urlparseTarget t1).2 =
      firstRandomValue (urlparseTarget t2).2)
    (hflag : randomizeFlag (urlparseTarget t1).2 = false) :
    do_GET t1 r1 none = do_GET t2 r2 none := by
  have hflag2 : randomizeFlag (urlparseTarget t2).2 = false := by
    simpa [randomizeFlag, hrand] using hflag
  have hb : buildResponse (urlparseTarget t1).1 (urlparseTarget t1).2 r1 =
      buildResponse (urlparseTarget t2).1 (urlparseTarget t2).2 r2 := by
    rw [hpath]
    by_cases hroute : (urlparseTarget t2).1 = "/phrase"
    · simp [buildResponse, hroute, hflag, hflag2, agent_phrase]
    · simp [buildResponse, hroute]
  simp [do_GET, hb]

/-- C10 witness: two targets sharing the path and the first random
value but differing in their other query parameters and oracles. -/
theorem c10_deterministic_witness :
    (urlparseTarget ("/phrase?random=abc&x=1")).1 =
      (urlparseTarget ("/phrase?y=2&random=abc")).1 ∧
    firstRandomValue (urlparseTarget ("/phrase?random=abc&x=1")).2 =
      firstRandomValue (urlparseTarget ("/phrase?y=2&random=abc")).2 ∧
    randomizeFlag (urlparseTarget ("/phrase?random=abc&x=1")).2 = false ∧
    do_GET ("/phrase?random=abc&x=1") 0 none =
      do_GET ("/phrase?y=2&random=abc") 3 none :=
  ⟨by decide, by decide, by decide,
    c10_deterministic_when_not_random ("/phrase?random=abc&x=1")
      ("/phrase?y=2&random=abc") 0 3 (by decide) (by decide) (by decide)⟩

end Agent
